import Mathlib

/-!
Verification development for the webasto-lora-remote-ctrl firmware.

The definitions below are a shallow embedding of the repository's C++
sources: the LoRa packet codec (`protocol.h`, `lora_link.cpp`), the
AES-CTR nonce derivation (`encryption.cpp`), the W-BUS transport and
TLV status parser (`wbus_simple.h/.cpp`), the receiver command
dispatch (`src/receiver/main.cpp`), the sender command/ACK loop
(`src/sender/main.cpp`) and the OLED menu state machine
(`menu_handler.h/.cpp`).  Machine integers are modelled as `Nat`/`Int`
with explicit reductions modulo `2^w` where the C++ code relies on
fixed-width wrap-around.
-/

namespace WebastoLora

/-! ## CRC-16/CCITT

`crc16_ccitt` is declared in `protocol.h`; its body lives in
`protocol.cpp`, which is not part of the checked-in tree. -/

/-- Modelled from the spec: `crc16_ccitt(bytes)` - the body of
`proto::crc16_ccitt` (declared in `protocol.h`, implemented in the
missing `protocol.cpp`): standard polynomial 0x1021, initial value
0xFFFF, no final XOR.  One bit step of the MSB-first CCITT update. -/
def crc16Bit (c : Nat) : Nat :=
  if 32768 ≤ c % 65536 then (((c % 65536) * 2) ^^^ 0x1021) % 65536
  else ((c % 65536) * 2) % 65536

/-- Modelled from the spec: one byte of the CCITT-FALSE update
(`crc ^= byte << 8`, then eight bit steps). -/
def crc16Update (crc b : Nat) : Nat :=
  (List.range 8).foldl (fun c _ => crc16Bit c) ((crc ^^^ ((b % 256) * 256)) % 65536)

/-- Modelled from the spec: CRC-16/CCITT over a byte sequence,
initial value 0xFFFF, no final XOR. -/
def crc16_ccitt (bytes : List Nat) : Nat :=
  bytes.foldl crc16Update 0xFFFF

/-! ## Protocol constants and payload sizing (`protocol.h`) -/

/-- `proto::kMagicVersion` = 0x34 ('4', protocol v4 fused magic+version). -/
def kMagicVersion : Nat := 0x34

/-- `LORA_NODE_SENDER` from `project_config.h`. -/
def LORA_NODE_SENDER : Nat := 1

/-- `LORA_NODE_RECEIVER` from `project_config.h`. -/
def LORA_NODE_RECEIVER : Nat := 2

/-- `proto::StatusPayload` (`protocol.h`), packed field for field:
state, minutesRemaining, lastRssiDbm, lastSnrDb, lastWbusOpState,
lastErrorCode, lastCmdSeq (uint16), temperatureC (int16),
voltage_mV (uint16), power (uint16).  Signed bytes are kept as `Int`,
unsigned fields as `Nat`. -/
structure StatusPayload where
  state : Nat
  minutesRemaining : Nat
  lastRssiDbm : Int
  lastSnrDb : Int
  lastWbusOpState : Nat
  lastErrorCode : Nat
  lastCmdSeq : Nat
  temperatureC : Int
  voltage_mV : Nat
  power : Nat
  deriving Repr, DecidableEq

/-- `proto::getPayloadSize`: Command (type 1) -> sizeof(CommandPayload) = 2,
Status (type 2) -> sizeof(StatusPayload) = 14, Ack (type 3) -> 0,
default -> 0.  The switch is over the raw `type` byte. -/
def getPayloadSize (typeByte : Nat) : Nat :=
  if typeByte = 1 then 2
  else if typeByte = 2 then 14
  else 0

/-- Two's-complement encoding of an `Int` into one byte, as `memcpy`
out of an `int8_t` field produces. -/
def int8Byte (i : Int) : Nat := (i % 256).toNat

/-- Little-endian two-byte encoding of an `Int` int16 field. -/
def int16Bytes (i : Int) : List Nat :=
  [((i % 65536).toNat) % 256, ((i % 65536).toNat) / 256]

/-- Little-endian two-byte encoding of a `Nat` uint16 field. -/
def u16Bytes (n : Nat) : List Nat := [n % 256, (n % 65536) / 256]

/-- The 6 header bytes of a v4 packet as laid out by
`proto::PacketHeader` with `#pragma pack(1)`:
magic_version, type, src, dst, seq (little-endian uint16). -/
def headerBytes (magic typeByte src dst seq : Nat) : List Nat :=
  [magic % 256, typeByte % 256, src % 256, dst % 256, seq % 256, (seq % 65536) / 256]

/-- In-memory byte image of `proto::StatusPayload` (14 bytes),
exactly the packed struct layout. -/
def statusPayloadBytes (s : StatusPayload) : List Nat :=
  [s.state % 256, s.minutesRemaining % 256, int8Byte s.lastRssiDbm,
   int8Byte s.lastSnrDb, s.lastWbusOpState % 256, s.lastErrorCode % 256]
  ++ u16Bytes s.lastCmdSeq ++ int16Bytes s.temperatureC
  ++ u16Bytes s.voltage_mV ++ u16Bytes s.power

/-! ## `LoRaLink::recv` (`lora_link.cpp`)

The receive path is modelled on the raw wire bytes.  `recv` reads the
6 header bytes, derives the payload length from the *wire size*
(`packetSize - sizeof(header) - sizeof(crc)`), zero-fills the rest of
the 32-byte payload union, reads the CRC, and then runs
`proto::validate`, which recomputes the CRC over the header plus the
`getPayloadSize`-many payload bytes *inferred from the type field*. -/

/-- An in-memory `proto::Packet` as reconstructed by `LoRaLink::recv`
before decryption: header fields plus the 32-byte payload union. -/
structure RxPacket where
  magicVersion : Nat
  typeByte : Nat
  src : Nat
  dst : Nat
  seq : Nat
  payload : List Nat
  crc : Nat
  deriving Repr, DecidableEq

/-- `proto::calcCrc`: CRC-16/CCITT over the packed header bytes
followed by the first `getPayloadSize(type)` bytes of the payload
union. -/
def calcCrc (p : RxPacket) : Nat :=
  crc16_ccitt (headerBytes p.magicVersion p.typeByte p.src p.dst p.seq
    ++ p.payload.take (getPayloadSize p.typeByte))

/-- `proto::validate`: magic/version byte must equal 0x34 and the
stored CRC must equal the recomputed CRC. -/
def validate (p : RxPacket) : Bool :=
  p.magicVersion = kMagicVersion && p.crc = calcCrc p

/-- `LoRaLink::recv` (lora_link.cpp): reject sizes outside
`[MIN_PACKET_SIZE, MAX_PACKET_SIZE] = [6+2, 6+14+2] = [8, 22]`; read
header; read `packetSize - 8` payload bytes and zero the rest of the
32-byte union; read the 2 CRC bytes (little-endian); return the packet
iff `proto::validate` passes.  (Decryption happens after validation
and cannot fail, so acceptance is decided here.) -/
def loraRecv (bytes : List Nat) : Option RxPacket :=
  let n := bytes.length
  if n < 8 ∨ 22 < n then none
  else
    let epb := n - 8
    let pkt : RxPacket :=
      { magicVersion := bytes.getD 0 0
        typeByte := bytes.getD 1 0
        src := bytes.getD 2 0
        dst := bytes.getD 3 0
        seq := bytes.getD 4 0 + 256 * bytes.getD 5 0
        payload := ((bytes.drop 6).take epb) ++ List.replicate (32 - epb) 0
        crc := bytes.getD (6 + epb) 0 + 256 * bytes.getD (7 + epb) 0 }
    if validate pkt then some pkt else none

/-! ## Quantizers

`packTemp`/`packVoltage`/`packPower` and their inverses are described
in the spec and the repository's design documents, but the quantized
protocol header is not part of the checked-in tree (the checked-in
`protocol.h` carries the sensor fields full-width). -/

/-- Modelled from the spec: `pack_temp(t) = t + 50` (uint8 cast),
valid domain −50..+205 °C. -/
def packTemp (t : Int) : Nat := ((t + 50) % 256).toNat

/-- Modelled from the spec: `unpack_temp(p) = p − 50`. -/
def unpackTemp (p : Nat) : Int := ((p % 256 : Nat) : Int) - 50

/-- Modelled from the spec: `pack_voltage(v) = (v − 8000) / 32`
(int arithmetic truncating toward zero, then uint8 cast),
domain 8000..16160 mV. -/
def packVoltage (v : Nat) : Nat :=
  ((Int.tdiv (((v % 65536 : Nat) : Int) - 8000) 32) % 256).toNat

/-- Modelled from the spec: `unpack_voltage(p) = p * 32 + 8000` (uint16). -/
def unpackVoltage (p : Nat) : Nat := ((p % 256) * 32 + 8000) % 65536

/-- Modelled from the spec: `pack_power(w) = w / 16` (uint8 cast),
domain 0..4080 W. -/
def packPower (w : Nat) : Nat := ((w % 65536) / 16) % 256

/-- Modelled from the spec: `unpack_power(p) = p * 16` (uint16). -/
def unpackPower (p : Nat) : Nat := ((p % 256) * 16) % 65536

/-! ## Concrete packets for the codec claims -/

/-- Header of a crafted 9-byte wire packet: magic 0x34, type 1
(Command), src 1, dst 2, seq 5. -/
def nineByteHeader : List Nat := [0x34, 1, 1, 2, 5, 0]

/-- CRC that `proto::validate` will recompute for the crafted packet:
over the 6 header bytes plus the 2 Command payload bytes, of which
only the first arrives on the wire (the second is zero-filled). -/
def nineByteCrc : Nat := crc16_ccitt (nineByteHeader ++ [7, 0])

/-- A complete 9-byte wire packet: header, a single payload byte, and
a matching CRC (little-endian). -/
def nineByteWire : List Nat := nineByteHeader ++ [7] ++ [nineByteCrc % 256, nineByteCrc / 256]

/-- A well-formed 10-byte Command wire packet (kind 1 = Stop,
minutes 0) used as a sanity witness for the codec. -/
def commandWire : List Nat :=
  let crc := crc16_ccitt (nineByteHeader ++ [1, 0])
  nineByteHeader ++ [1, 0] ++ [crc % 256, crc / 256]

/-- An all-zero `StatusPayload` record. -/
def zeroStatus : StatusPayload :=
  { state := 0, minutesRemaining := 0, lastRssiDbm := 0, lastSnrDb := 0
    lastWbusOpState := 0, lastErrorCode := 0, lastCmdSeq := 0
    temperatureC := 0, voltage_mV := 0, power := 0 }

/-! ## W-BUS transmit path (`wbus_simple.cpp`)

`WBusSimple::sendCommand` composes header `0xF4`, length
`dataLen + 2`, the command byte, the data bytes and the XOR checksum,
writes them to the UART and returns `true`.  The lazily-performed
break pulse only toggles the TX GPIO (no UART bytes); it is tracked by
the `didBreak` flag. -/

/-- `WBUS_ADDR_CONTROLLER`/`WBUS_ADDR_HEATER` give TX header
`(0xF << 4) | 0x4 = 0xF4`. -/
def wbusTxHeader : Nat := 0xF4

/-- Heater-to-controller header `0x4F`. -/
def wbusRxHeader : Nat := 0x4F

/-- `WBusSimple::kCommandRetries` (wbus_simple.h): declared constant 3. -/
def kCommandRetries : Nat := 3

/-- XOR checksum over header, length, command byte and data bytes, as
computed in `WBusSimple::sendCommand`. -/
def wbusXorChecksum (header length cmd : Nat) (data : List Nat) : Nat :=
  data.foldl (fun a b => a ^^^ (b % 256)) (((header % 256) ^^^ (length % 256)) ^^^ (cmd % 256))

/-- `WBusSimple::sendCommand(cmd, data, dataLen)`: performs the break
pulse once (setting `didBreak`), writes the frame bytes, and returns
`true` unconditionally.  Result: (new `didBreak`, frame bytes written,
return value). -/
def wbusSendCommand (didBreak : Bool) (cmd : Nat) (data : List Nat) :
    Bool × List Nat × Bool :=
  let didBreak' := didBreak || true  -- WBUS_SEND_BREAK is 1: the pulse runs on first use
  let header := wbusTxHeader
  let length := (data.length + 2) % 256
  let frame := [header, length, cmd % 256] ++ data.map (· % 256)
    ++ [wbusXorChecksum header length cmd data]
  (didBreak', frame, true)

/-- `WBusSimple::stop()`: `sendCommand(0x10, nullptr, 0)`. -/
def wbusStop (didBreak : Bool) : Bool × List Nat × Bool :=
  wbusSendCommand didBreak 0x10 []

/-- `WBusSimple::startParkingHeater(minutes)`: `sendCommand(0x21, &minutes, 1)`. -/
def wbusStartParkingHeater (didBreak : Bool) (minutes : Nat) : Bool × List Nat × Bool :=
  wbusSendCommand didBreak 0x21 [minutes % 256]

/-! ## Receiver command dispatch (`src/receiver/main.cpp`) -/

/-- Receiver globals touched by the command-dispatch block of `loop()`. -/
structure ReceiverState where
  gSeq : Nat
  gStatus : StatusPayload
  gLastCmdMs : Nat
  gLastRunMinutes : Nat
  gLastProcessedCmdSeq : Nat
  gLastCommandSource : String
  wbusDidBreak : Bool
  deriving Repr, DecidableEq

/-- Externally visible actions of the dispatch block: W-BUS frames
written to the heater and Status packets transmitted over LoRa. -/
inductive Effect where
  | wbusFrame (bytes : List Nat)
  | statusTx (seq : Nat) (payload : StatusPayload)
  deriving Repr, DecidableEq

/-- `true` exactly on LoRa Status transmissions. -/
def Effect.isStatusTx : Effect → Bool
  | .statusTx _ _ => true
  | .wbusFrame _ => false

/-- `true` exactly on W-BUS frame writes. -/
def Effect.isWbusFrame : Effect → Bool
  | .statusTx _ _ => false
  | .wbusFrame _ => true

/-- Truncating cast to `int8_t`, as `(int8_t)rssiDbm` performs. -/
def int8Cast (i : Int) : Int := (i + 128) % 256 - 128

/-- `sendStatus(rssiDbm, snrDb)` (`src/receiver/main.cpp`): stamps the
RSSI/SNR into `gStatus`, transmits a Status packet with src=receiver,
dst=sender and seq `gSeq++`, and leaves the updated globals behind. -/
def sendStatus (st : ReceiverState) (rssi snr : Int) : ReceiverState × Effect :=
  let status := { st.gStatus with lastRssiDbm := int8Cast rssi, lastSnrDb := int8Cast snr }
  ({ st with gStatus := status, gSeq := (st.gSeq + 1) % 65536 },
   Effect.statusTx st.gSeq status)

/-- Result of the `switch (pkt.p.cmd.kind)` statement: the `ok` flag,
the state after the W-BUS call and its state updates, and the W-BUS
frames written. -/
structure DispatchStep where
  ok : Bool
  st : ReceiverState
  effs : List Effect

/-- The `switch (pkt.p.cmd.kind)` of the receiver's command handler:
Stop (1) sends W-BUS `0x10`; Start (2) and RunMinutes (3) update
`gLastRunMinutes` (keeping the old preset when `minutes == 0`) and
send W-BUS `0x21 minutes`; every other kind falls into `default:`
with `ok = false` and no W-BUS traffic.  The checked-in
`WBusSimple::sendCommand` returns `true` unconditionally, so `ok` is
`true` on the three known kinds. -/
def dispatchSwitch (st : ReceiverState) (kind minutes : Nat) : DispatchStep :=
  if kind = 1 then
    let r := wbusStop st.wbusDidBreak
    let st1 := { st with wbusDidBreak := r.1 }
    let st2 := if r.2.2 then { st1 with gStatus := { st1.gStatus with state := 1 } } else st1
    { ok := r.2.2, st := st2, effs := [Effect.wbusFrame r.2.1] }
  else if kind = 2 ∨ kind = 3 then
    let m := if minutes ≠ 0 then minutes else st.gLastRunMinutes
    let r := wbusStartParkingHeater st.wbusDidBreak m
    let st1 := { st with gLastRunMinutes := m, wbusDidBreak := r.1 }
    let st2 := if r.2.2 then { st1 with gStatus := { st1.gStatus with state := 2 } } else st1
    { ok := r.2.2, st := st2, effs := [Effect.wbusFrame r.2.1] }
  else
    { ok := false, st := st, effs := [] }

/-- The command-dispatch block of the receiver `loop()` (the body of
`if (pkt.h.type == Command && pkt.h.dst == LORA_NODE_RECEIVER)`),
applied to the already-decrypted packet fields.  Duplicate sequence
numbers (equal to the persisted `gLastProcessedCmdSeq`) are re-ACKed
with a fresh Status and nothing is sent to the heater; new sequence
numbers run the kind switch, set `HeaterState::Error` (3) on failure,
record the sequence as processed and ACK with a Status. -/
def receiverDispatch (st : ReceiverState) (typeByte dst seq kind minutes : Nat)
    (rssi snr : Int) (now : Nat) : ReceiverState × List Effect :=
  if typeByte = 1 ∧ dst = LORA_NODE_RECEIVER then
    if seq = st.gLastProcessedCmdSeq then
      let st1 := { st with gStatus := { st.gStatus with lastCmdSeq := st.gLastProcessedCmdSeq } }
      let r := sendStatus st1 rssi snr
      (r.1, [r.2])
    else
      let step := dispatchSwitch st kind minutes
      let st2 := { step.st with gLastCmdMs := now }
      let st3 :=
        if step.ok then st2
        else { st2 with gStatus := { st2.gStatus with state := 3 } }
      let st4 := { st3 with
        gLastCommandSource := "lora"
        gLastProcessedCmdSeq := seq
        gStatus := { st3.gStatus with lastCmdSeq := seq } }
      let r := sendStatus st4 rssi snr
      (r.1, step.effs ++ [r.2])
  else (st, [])

/-- A receiver state as produced by the C++ static initializers plus
`setup()`: `gSeq = 1`, zeroed status with unknown measurements,
`gLastRunMinutes = DEFAULT_RUN_MINUTES = 30`. -/
def initialReceiverState : ReceiverState :=
  { gSeq := 1
    gStatus := { zeroStatus with temperatureC := -32768 }
    gLastCmdMs := 0
    gLastRunMinutes := 30
    gLastProcessedCmdSeq := 0
    gLastCommandSource := "none"
    wbusDidBreak := false }

/-! ## AES-CTR nonce derivation and sequence counters
(`encryption.cpp`, receiver globals) -/

/-- `AES128CTR::buildNonce`: 16 bytes, `seq` little-endian in bytes
0..3, `src` in byte 4, `dst` in byte 5, bytes 6..15 zero. -/
def buildNonce (seq src dst : Nat) : List Nat :=
  [seq % 256, seq / 256 % 256, seq / 65536 % 256, seq / 16777216 % 256,
   src % 256, dst % 256, 0, 0, 0, 0, 0, 0, 0, 0, 0, 0]

/-- The receiver-side state that matters for nonce uniqueness:
`gSeq` is a plain `static` (re-initialized to 1 on every deep-sleep
wake), while `gLastProcessedCmdSeq` and `gTlvSupportCache` are
`RTC_DATA_ATTR` and survive deep sleep. -/
structure NodeSeqState where
  gSeq : Nat
  rtcLastProcessedCmdSeq : Nat
  rtcTlvSupportCache : Nat
  deriving Repr, DecidableEq

/-- Receiver cold-boot state: `gSeq = 1`, RTC variables zero. -/
def nodeBoot : NodeSeqState :=
  { gSeq := 1, rtcLastProcessedCmdSeq := 0, rtcTlvSupportCache := 0 }

/-- Events that affect the receiver's sequence counter: transmitting
a Status packet, or a deep-sleep/wake cycle
(`esp_deep_sleep_start` resumes through reset, so non-RTC statics are
re-initialized while `RTC_DATA_ATTR` globals persist). -/
inductive SeqEvent where
  | txStatus
  | sleepWake
  deriving Repr, DecidableEq

/-- One step of the sequence-counter model; emits the nonce triple
(seq, src, dst) used for a transmission. -/
def seqStep (st : NodeSeqState) : SeqEvent → NodeSeqState × List (Nat × Nat × Nat)
  | .txStatus =>
    ({ st with gSeq := (st.gSeq + 1) % 65536 },
     [(st.gSeq, LORA_NODE_RECEIVER, LORA_NODE_SENDER)])
  | .sleepWake =>
    ({ st with gSeq := 1 }, [])

/-- Run the sequence-counter model over a list of events, collecting
every transmitted nonce triple in order. -/
def seqRun (st : NodeSeqState) : List SeqEvent → NodeSeqState × List (Nat × Nat × Nat)
  | [] => (st, [])
  | e :: es =>
    let r := seqStep st e
    let rest := seqRun r.1 es
    (rest.1, r.2 ++ rest.2)

/-! ## Menu state machine (`menu_handler.h/.cpp`) -/

/-- `MenuState`. -/
inductive MenuState where
  | Hidden
  | Visible
  deriving Repr, DecidableEq

/-- `MenuHandler` private state.  `selectedItem` is the `MenuItem`
enumerator as a number (0 = Start, 1 = Stop, 2..5 = Run10/20/30/90,
`MenuItem::Count` = 6). -/
structure MenuSt where
  currentState : MenuState
  selectedItem : Nat
  lastButtonMs : Nat
  buttonPressStartMs : Nat
  buttonWasPressed : Bool
  menuShowTimeMs : Nat
  itemActivated : Bool
  deriving Repr, DecidableEq

/-- `MenuHandler::DEBOUNCE_MS`. -/
def DEBOUNCE_MS : Nat := 20

/-- `MenuHandler::LONG_PRESS_MS`. -/
def LONG_PRESS_MS : Nat := 800

/-- `MenuHandler::MENU_TIMEOUT_MS`. -/
def MENU_TIMEOUT_MS : Nat := 10000

/-- `MenuItem::Count`. -/
def menuItemCount : Nat := 6

/-- `MenuHandler::show()`: Visible, stamp `menuShowTimeMs`, reset the
selection to the first item (`MenuItem::Start`). -/
def menuShow (st : MenuSt) (now : Nat) : MenuSt :=
  { st with currentState := .Visible, menuShowTimeMs := now, selectedItem := 0 }

/-- `MenuHandler::hide()`. -/
def menuHide (st : MenuSt) : MenuSt :=
  { st with currentState := .Hidden, menuShowTimeMs := 0 }

/-- `MenuHandler::isTimedOut()`. -/
def menuIsTimedOut (st : MenuSt) (now : Nat) : Bool :=
  if st.currentState ≠ .Visible ∨ st.menuShowTimeMs = 0 then false
  else decide (MENU_TIMEOUT_MS < now - st.menuShowTimeMs)

/-- `MenuHandler::update()` at time `now` with the debounced raw
button level `buttonPressed` (`true` = pressed). -/
def menuUpdate (st : MenuSt) (now : Nat) (buttonPressed : Bool) : MenuSt :=
  let st1 :=
    if buttonPressed ≠ st.buttonWasPressed then
      if DEBOUNCE_MS ≤ now - st.lastButtonMs then
        let st := { st with buttonWasPressed := buttonPressed, lastButtonMs := now }
        if buttonPressed then
          let st := { st with buttonPressStartMs := now }
          if st.currentState = .Hidden then menuShow st now else st
        else
          let pressDuration := now - st.buttonPressStartMs
          if st.currentState = .Visible then
            if LONG_PRESS_MS ≤ pressDuration then
              menuHide { st with itemActivated := true }
            else
              { st with selectedItem := (st.selectedItem + 1) % menuItemCount
                        menuShowTimeMs := now }
          else st
      else st
    else st
  if st1.currentState = .Visible && menuIsTimedOut st1 now then menuHide st1 else st1

/-- Run `menu.update()` over a trace of `(now, buttonPressed)` samples. -/
def menuRun (st : MenuSt) : List (Nat × Bool) → MenuSt
  | [] => st
  | (now, b) :: rest => menuRun (menuUpdate st now b) rest

/-- State after `MenuHandler::begin()` at time `t0`: Hidden, first
item selected, `lastButtonMs = millis()`. -/
def menuBegin (t0 : Nat) : MenuSt :=
  { currentState := .Hidden, selectedItem := 0, lastButtonMs := t0
    buttonPressStartMs := 0, buttonWasPressed := false
    menuShowTimeMs := 0, itemActivated := false }

/-! ## Sender command/ACK loop (`src/sender/main.cpp`) -/

/-- `SENDER_CMD_ACK_TIMEOUT_MS` (project_config.h). -/
def SENDER_CMD_ACK_TIMEOUT_MS : Nat := 10000

/-- `SENDER_CMD_RETRY_INTERVAL_MS` (project_config.h). -/
def SENDER_CMD_RETRY_INTERVAL_MS : Nat := 1000

/-- A packet as seen by the sender's RX pump: header type/src bytes,
the decoded Status payload, and the radio's RSSI/SNR readings. -/
structure SenderRxMsg where
  typeByte : Nat
  src : Nat
  status : StatusPayload
  rssi : Int
  snr : Int
  deriving Repr, DecidableEq

/-- One iteration of the sender's wait loop: the `millis()` reading
and the packet returned by `loraLink.recv`, if any. -/
structure SenderPoll where
  now : Nat
  rx : Option SenderRxMsg
  deriving Repr, DecidableEq

/-- Mutable state threaded through `sendCommandWithAck`'s wait loop:
the cached last status (`gLastStatus`), its receive time, the list of
transmission times performed so far, and `nextSend`. -/
structure AckLoopState where
  gLastStatus : StatusPayload
  gLastStatusRxMs : Nat
  sends : List Nat
  nextSend : Nat
  deriving Repr, DecidableEq

/-- The wait loop of `sendCommandWithAck` (`src/sender/main.cpp`):
while the elapsed time is below the ACK deadline, transmit the command
packet whenever `now >= nextSend` (rescheduling one retry interval
later), pump the radio, cache any Status from the receiver (with
RSSI/SNR stamped in), and return `true` as soon as a cached Status
carries `lastCmdSeq == cmdSeq`.  Exhausting the deadline returns
`false`. -/
def ackLoop (start cmdSeq : Nat) : List SenderPoll → AckLoopState → Bool × AckLoopState
  | [], st => (false, st)
  | p :: rest, st =>
    if p.now - start < SENDER_CMD_ACK_TIMEOUT_MS then
      let st :=
        if st.nextSend ≤ p.now then
          { st with sends := st.sends ++ [p.now]
                    nextSend := p.now + SENDER_CMD_RETRY_INTERVAL_MS }
        else st
      match p.rx with
      | some m =>
        if m.typeByte = 2 ∧ m.src = LORA_NODE_RECEIVER then
          let cached := { m.status with lastRssiDbm := int8Cast m.rssi
                                        lastSnrDb := int8Cast m.snr }
          let st := { st with gLastStatus := cached, gLastStatusRxMs := p.now }
          if cached.lastCmdSeq = cmdSeq then (true, st)
          else ackLoop start cmdSeq rest st
        else ackLoop start cmdSeq rest st
      | none => ackLoop start cmdSeq rest st
    else (false, st)

/-- Sender globals relevant to command submission. -/
structure SenderState where
  gSeq : Nat
  gLastStatus : StatusPayload
  gLastStatusRxMs : Nat
  gAwaitingCmdSeq : Nat
  deriving Repr, DecidableEq

/-- `sendCommandWithAck(kind, minutes)`: allocates the fresh sequence
number `gSeq++`, runs the wait loop (with `nextSend = 0`, so the first
iteration transmits immediately), and clears `gAwaitingCmdSeq` on both
exits.  Returns the ACK outcome together with the updated sender
state and the transmission times. -/
def sendCommandWithAck (sst : SenderState) (start : Nat) (polls : List SenderPoll) :
    Bool × SenderState × List Nat :=
  let cmdSeq := sst.gSeq
  let r := ackLoop start cmdSeq polls
    { gLastStatus := sst.gLastStatus, gLastStatusRxMs := sst.gLastStatusRxMs
      sends := [], nextSend := 0 }
  (r.1,
   { gSeq := (sst.gSeq + 1) % 65536
     gLastStatus := r.2.gLastStatus
     gLastStatusRxMs := r.2.gLastStatusRxMs
     gAwaitingCmdSeq := 0 },
   r.2.sends)

/-- `true` iff a poll carries a Status packet from the receiver whose
`lastCmdSeq` equals `cmdSeq` (the sender's correlation test). -/
def isAckFor (cmdSeq : Nat) (p : SenderPoll) : Bool :=
  match p.rx with
  | some m => m.typeByte = 2 && m.src = LORA_NODE_RECEIVER && m.status.lastCmdSeq = cmdSeq
  | none => false

/-! ## Multi-status TLV parser (`WBusSimple::tryParseStatusTlv`) -/

/-- A W-BUS frame as assembled by the RX state machine: `payload`
still includes the trailing checksum byte, `payloadLen` equals the
`length` field. -/
structure WBusPacket where
  header : Nat
  length : Nat
  payload : List Nat
  payloadLen : Nat
  deriving Repr, DecidableEq

/-- Decoded multi-status snapshot (`WBusStatus`). -/
structure WBusStatus where
  valid : Bool
  temperatureC : Int
  voltage_mV : Nat
  power : Nat
  glowResistance_mOhm : Nat
  combustionFan : Nat
  status_01 : Nat
  status_03 : Nat
  status_05 : Nat
  status_06 : Nat
  status_07 : Nat
  status_08 : Nat
  status_0A : Nat
  status_0F : Nat
  status_10 : Nat
  status_1F : Nat
  status_24 : Nat
  status_27 : Nat
  status_29 : Nat
  status_2A : Nat
  status_2C : Nat
  status_2D : Nat
  status_32 : Nat
  status_34 : Nat
  status_3D : Nat
  status_52 : Nat
  status_57 : Nat
  status_5F : Nat
  status_78 : Nat
  status_89 : Nat
  deriving Repr, DecidableEq

/-- Default-constructed `WBusStatus` (all zero, `temperatureC =
INT16_MIN`, not valid). -/
def emptyWBusStatus : WBusStatus :=
  { valid := false, temperatureC := -32768, voltage_mV := 0, power := 0
    glowResistance_mOhm := 0, combustionFan := 0
    status_01 := 0, status_03 := 0, status_05 := 0, status_06 := 0
    status_07 := 0, status_08 := 0, status_0A := 0, status_0F := 0
    status_10 := 0, status_1F := 0, status_24 := 0, status_27 := 0
    status_29 := 0, status_2A := 0, status_2C := 0, status_2D := 0
    status_32 := 0, status_34 := 0, status_3D := 0, status_52 := 0
    status_57 := 0, status_5F := 0, status_78 := 0, status_89 := 0 }

/-- The `isKnownId` lambda: the closed set of 29 TLV IDs the parser
understands. -/
def isKnownId (candidate : Nat) : Bool :=
  candidate = 0x01 || candidate = 0x03 || candidate = 0x05 || candidate = 0x06 ||
  candidate = 0x07 || candidate = 0x08 || candidate = 0x0A || candidate = 0x0C ||
  candidate = 0x0E || candidate = 0x0F || candidate = 0x10 || candidate = 0x11 ||
  candidate = 0x13 || candidate = 0x1E || candidate = 0x1F || candidate = 0x24 ||
  candidate = 0x27 || candidate = 0x29 || candidate = 0x2A || candidate = 0x2C ||
  candidate = 0x2D || candidate = 0x32 || candidate = 0x34 || candidate = 0x3D ||
  candidate = 0x52 || candidate = 0x57 || candidate = 0x5F || candidate = 0x78 ||
  candidate = 0x89

/-- Big-endian 16-bit combination (`be16`). -/
def be16 (hi lo : Nat) : Nat := (hi % 256) * 256 + lo % 256

/-- The `parseMaybeU16` lambda for ambiguous-length IDs: prefer two
bytes (big-endian) when two value bytes fit before `endPos` and the
byte two positions ahead is at/past `endPos` or is a known ID;
otherwise fall back to one byte when it fits and the byte one position
ahead is at/past `endPos` or is a known ID; otherwise fail.  Returns
the decoded value and the new position. -/
def parseMaybeU16 (payload : List Nat) (endPos pos : Nat) : Option (Nat × Nat) :=
  if pos + 2 ≤ endPos ∧ (endPos ≤ pos + 2 ∨ isKnownId (payload.getD (pos + 2) 0)) then
    some (be16 (payload.getD pos 0) (payload.getD (pos + 1) 0), pos + 2)
  else if pos + 1 ≤ endPos ∧ (endPos ≤ pos + 1 ∨ isKnownId (payload.getD (pos + 1) 0)) then
    some (payload.getD pos 0, pos + 1)
  else none

/-- The TLV walk of `tryParseStatusTlv`: starting after the 2-byte
prefix, read an ID, dispatch on it (single-byte IDs, the temperature
ID `0x0C`, fixed two-byte IDs, the four ambiguous IDs through
`parseMaybeU16`), and abort with `none` on any unknown ID or
truncated field. -/
def parseTlvLoop (payload : List Nat) (endPos : Nat) (pos : Nat) (s : WBusStatus) :
    Option WBusStatus :=
  if h : pos < endPos then
    let id := payload.getD pos 0
    let pos1 := pos + 1
    let get1 := payload.getD pos1 0
    let get2hi := payload.getD pos1 0
    let get2lo := payload.getD (pos1 + 1) 0
    if id = 0x01 then
      if pos1 + 1 ≤ endPos then parseTlvLoop payload endPos (pos1 + 1) { s with status_01 := get1 } else none
    else if id = 0x03 then
      if pos1 + 1 ≤ endPos then parseTlvLoop payload endPos (pos1 + 1) { s with status_03 := get1 } else none
    else if id = 0x05 then
      if pos1 + 1 ≤ endPos then parseTlvLoop payload endPos (pos1 + 1) { s with status_05 := get1 } else none
    else if id = 0x06 then
      if pos1 + 1 ≤ endPos then parseTlvLoop payload endPos (pos1 + 1) { s with status_06 := get1 } else none
    else if id = 0x07 then
      if pos1 + 1 ≤ endPos then parseTlvLoop payload endPos (pos1 + 1) { s with status_07 := get1 } else none
    else if id = 0x08 then
      if pos1 + 1 ≤ endPos then parseTlvLoop payload endPos (pos1 + 1) { s with status_08 := get1 } else none
    else if id = 0x0A then
      if pos1 + 1 ≤ endPos then parseTlvLoop payload endPos (pos1 + 1) { s with status_0A := get1 } else none
    else if id = 0x10 then
      if pos1 + 1 ≤ endPos then parseTlvLoop payload endPos (pos1 + 1) { s with status_10 := get1 } else none
    else if id = 0x1F then
      if pos1 + 1 ≤ endPos then parseTlvLoop payload endPos (pos1 + 1) { s with status_1F := get1 } else none
    else if id = 0x24 then
      if pos1 + 1 ≤ endPos then parseTlvLoop payload endPos (pos1 + 1) { s with status_24 := get1 } else none
    else if id = 0x27 then
      if pos1 + 1 ≤ endPos then parseTlvLoop payload endPos (pos1 + 1) { s with status_27 := get1 } else none
    else if id = 0x2A then
      if pos1 + 1 ≤ endPos then parseTlvLoop payload endPos (pos1 + 1) { s with status_2A := get1 } else none
    else if id = 0x2C then
      if pos1 + 1 ≤ endPos then parseTlvLoop payload endPos (pos1 + 1) { s with status_2C := get1 } else none
    else if id = 0x2D then
      if pos1 + 1 ≤ endPos then parseTlvLoop payload endPos (pos1 + 1) { s with status_2D := get1 } else none
    else if id = 0x32 then
      if pos1 + 1 ≤ endPos then parseTlvLoop payload endPos (pos1 + 1) { s with status_32 := get1 } else none
    else if id = 0x0C then
      if pos1 + 1 ≤ endPos then
        parseTlvLoop payload endPos (pos1 + 1) { s with temperatureC := (get1 : Int) - 50 }
      else none
    else if id = 0x0E then
      if pos1 + 2 ≤ endPos then parseTlvLoop payload endPos (pos1 + 2) { s with voltage_mV := be16 get2hi get2lo } else none
    else if id = 0x0F then
      if pos1 + 2 ≤ endPos then parseTlvLoop payload endPos (pos1 + 2) { s with status_0F := be16 get2hi get2lo } else none
    else if id = 0x11 then
      if pos1 + 2 ≤ endPos then parseTlvLoop payload endPos (pos1 + 2) { s with power := be16 get2hi get2lo } else none
    else if id = 0x13 then
      if pos1 + 2 ≤ endPos then parseTlvLoop payload endPos (pos1 + 2) { s with glowResistance_mOhm := be16 get2hi get2lo } else none
    else if id = 0x1E then
      if pos1 + 2 ≤ endPos then parseTlvLoop payload endPos (pos1 + 2) { s with combustionFan := be16 get2hi get2lo } else none
    else if id = 0x29 then
      if pos1 + 2 ≤ endPos then parseTlvLoop payload endPos (pos1 + 2) { s with status_29 := be16 get2hi get2lo } else none
    else if id = 0x34 then
      if pos1 + 2 ≤ endPos then parseTlvLoop payload endPos (pos1 + 2) { s with status_34 := be16 get2hi get2lo } else none
    else if id = 0x3D then
      if pos1 + 2 ≤ endPos then parseTlvLoop payload endPos (pos1 + 2) { s with status_3D := be16 get2hi get2lo } else none
    else if id = 0x52 then
      if pos1 + 2 ≤ endPos then parseTlvLoop payload endPos (pos1 + 2) { s with status_52 := be16 get2hi get2lo } else none
    else if id = 0x57 then
      match parseMaybeU16 payload endPos pos1 with
      | some (v, pos2) =>
        if h2 : pos1 ≤ pos2 then parseTlvLoop payload endPos pos2 { s with status_57 := v } else none
      | none => none
    else if id = 0x5F then
      match parseMaybeU16 payload endPos pos1 with
      | some (v, pos2) =>
        if h2 : pos1 ≤ pos2 then parseTlvLoop payload endPos pos2 { s with status_5F := v } else none
      | none => none
    else if id = 0x78 then
      match parseMaybeU16 payload endPos pos1 with
      | some (v, pos2) =>
        if h2 : pos1 ≤ pos2 then parseTlvLoop payload endPos pos2 { s with status_78 := v } else none
      | none => none
    else if id = 0x89 then
      match parseMaybeU16 payload endPos pos1 with
      | some (v, pos2) =>
        if h2 : pos1 ≤ pos2 then parseTlvLoop payload endPos pos2 { s with status_89 := v } else none
      | none => none
    else
      none
  else some s
termination_by endPos - pos
decreasing_by all_goals omega

/-- `WBusSimple::tryParseStatusTlv`: check the `0xD0 0x30` prefix,
walk the TLVs up to (but excluding) the trailing checksum byte, and
mark the snapshot valid on success. -/
def tryParseStatusTlv (pkt : WBusPacket) : Option WBusStatus :=
  if pkt.payloadLen < 4 then none
  else if (pkt.payload.getD 0 0) % 128 ≠ 0x50 then none
  else if pkt.payload.getD 1 0 ≠ 0x30 then none
  else
    match parseTlvLoop pkt.payload (pkt.payloadLen - 1) 2 emptyWBusStatus with
    | some s => some { s with valid := true }
    | none => none

/-- A multi-status response frame whose ambiguous ID 0x57 is followed
by exactly one value byte before the checksum: the lookahead position
two bytes ahead lies past the end of the TLV region. -/
def c8CxPacket : WBusPacket :=
  { header := 0x4F, length := 5, payload := [0xD0, 0x30, 0x57, 0x0A, 0x99], payloadLen := 5 }

/-- A multi-status response payload whose ambiguous ID 0x57 carries a
two-byte value followed by the known ID 0x01: [0xD0, 0x30, 0x57, 1, 2,
0x01, 5, checksum]. -/
def c8TwoBytePayload : List Nat := [0xD0, 0x30, 0x57, 1, 2, 0x01, 5, 0x99]

/-- A sender state about to submit with sequence number 42. -/
def c2Sender : SenderState :=
  { gSeq := 42, gLastStatus := zeroStatus, gLastStatusRxMs := 0, gAwaitingCmdSeq := 0 }

/-- A Status packet from the receiver acknowledging command 42. -/
def c2AckMsg : SenderRxMsg :=
  { typeByte := 2, src := 2, status := { zeroStatus with lastCmdSeq := 42 }
    rssi := -70, snr := 4 }

/-- Two wait-loop iterations: nothing at t=1000, the correlated
Status at t=2000. -/
def c2Polls : List SenderPoll :=
  [{ now := 1000, rx := none }, { now := 2000, rx := some c2AckMsg }]

/-! # Theorems -/

/-- Helper: the sender's wait loop returns success precisely when
some poll before the ACK deadline carries a Status from the receiver
whose `lastCmdSeq` equals the outstanding sequence number (times
non-decreasing from `start`, as `millis()` produces). -/
theorem ackLoop_true_iff (start cmdSeq : Nat) (polls : List SenderPoll) (st0 : AckLoopState)
    (hmono : List.Sorted (· ≤ ·) (start :: polls.map (·.now))) :
    (ackLoop start cmdSeq polls st0).1 = true ↔
      ∃ p ∈ polls, p.now - start < SENDER_CMD_ACK_TIMEOUT_MS ∧ isAckFor cmdSeq p = true := by
  induction polls generalizing st0 with
  | nil => simp [ackLoop]
  | cons p rest ih =>
    have hmono' : List.Sorted (· ≤ ·) (start :: rest.map (·.now)) := by
      rw [List.map_cons] at hmono
      rw [List.sorted_cons] at hmono ⊢
      refine ⟨fun b hb => hmono.1 b (List.mem_cons_of_mem _ hb), (List.sorted_cons.mp hmono.2).2⟩
    by_cases ht : p.now - start < SENDER_CMD_ACK_TIMEOUT_MS
    · rw [ackLoop]
      rw [if_pos ht]
      cases hrx : p.rx with
      | none =>
        simp only []
        rw [ih _ hmono']
        constructor
        · rintro ⟨q, hq, h1, h2⟩; exact ⟨q, List.mem_cons_of_mem _ hq, h1, h2⟩
        · rintro ⟨q, hq, h1, h2⟩
          rcases List.mem_cons.mp hq with rfl | hq'
          · simp [isAckFor, hrx] at h2
          · exact ⟨q, hq', h1, h2⟩
      | some m =>
        simp only []
        by_cases hsm : m.typeByte = 2 ∧ m.src = LORA_NODE_RECEIVER
        · rw [if_pos hsm]
          by_cases hseq : m.status.lastCmdSeq = cmdSeq
          · have hcond : ({ m.status with lastRssiDbm := int8Cast m.rssi, lastSnrDb := int8Cast m.snr } : StatusPayload).lastCmdSeq = cmdSeq := hseq
            rw [if_pos hcond]
            exact iff_of_true rfl ⟨p, List.mem_cons_self _ _, ht, by
              simp [isAckFor, hrx, hsm.1, hsm.2, hseq]⟩
          · have hcond : ¬ ({ m.status with lastRssiDbm := int8Cast m.rssi, lastSnrDb := int8Cast m.snr } : StatusPayload).lastCmdSeq = cmdSeq := hseq
            rw [if_neg hcond]
            rw [ih _ hmono']
            constructor
            · rintro ⟨q, hq, h1, h2⟩; exact ⟨q, List.mem_cons_of_mem _ hq, h1, h2⟩
            · rintro ⟨q, hq, h1, h2⟩
              rcases List.mem_cons.mp hq with rfl | hq'
              · simp [isAckFor, hrx, hseq] at h2
              · exact ⟨q, hq', h1, h2⟩
        · rw [if_neg hsm]
          rw [ih _ hmono']
          constructor
          · rintro ⟨q, hq, h1, h2⟩; exact ⟨q, List.mem_cons_of_mem _ hq, h1, h2⟩
          · rintro ⟨q, hq, h1, h2⟩
            rcases List.mem_cons.mp hq with rfl | hq'
            · simp [isAckFor, hrx] at h2
              exact absurd h2.1 hsm
            · exact ⟨q, hq', h1, h2⟩
    · rw [ackLoop]
      rw [if_neg ht]
      refine iff_of_false (by simp) ?_
      rintro ⟨q, hq, h1, h2⟩
      rcases List.mem_cons.mp hq with rfl | hq'
      · exact ht h1
      · have hple : p.now ≤ q.now := by
          rw [List.map_cons] at hmono
          have := (List.sorted_cons.mp (List.sorted_cons.mp hmono).2).1
          exact this q.now (List.mem_map_of_mem _ hq')
        omega

/-- Helper: the transmission times recorded by the wait loop are
spaced at least one retry interval apart. -/
theorem ackLoop_sends_cadence (start cmdSeq : Nat) (polls : List SenderPoll)
    (st0 : AckLoopState)
    (hchain : List.Chain' (fun a b => a + SENDER_CMD_RETRY_INTERVAL_MS ≤ b) st0.sends)
    (hbound : ∀ l ∈ st0.sends, l + SENDER_CMD_RETRY_INTERVAL_MS ≤ st0.nextSend) :
    List.Chain' (fun a b => a + SENDER_CMD_RETRY_INTERVAL_MS ≤ b)
      (ackLoop start cmdSeq polls st0).2.sends := by
  induction polls generalizing st0 with
  | nil => simpa [ackLoop] using hchain
  | cons p rest ih =>
    rw [ackLoop]
    by_cases ht : p.now - start < SENDER_CMD_ACK_TIMEOUT_MS
    · rw [if_pos ht]
      by_cases hsend : st0.nextSend ≤ p.now
      · rw [if_pos hsend]
        have hchain1 : List.Chain'
            (fun a b => a + SENDER_CMD_RETRY_INTERVAL_MS ≤ b) (st0.sends ++ [p.now]) := by
          rw [List.chain'_append]
          refine ⟨hchain, List.chain'_singleton _, ?_⟩
          intro x hx y hy
          simp only [List.head?_cons, Option.mem_def, Option.some.injEq] at hy
          subst hy
          have := hbound x (List.mem_of_mem_getLast? hx)
          omega
        have hbound1 : ∀ l ∈ st0.sends ++ [p.now],
            l + SENDER_CMD_RETRY_INTERVAL_MS ≤ p.now + SENDER_CMD_RETRY_INTERVAL_MS := by
          intro l hl
          rcases List.mem_append.mp hl with h | h
          · have := hbound l h
            omega
          · simp at h
            omega
        cases hrx : p.rx with
        | none => exact ih _ hchain1 hbound1
        | some m =>
          simp only []
          by_cases hsm : m.typeByte = 2 ∧ m.src = LORA_NODE_RECEIVER
          · rw [if_pos hsm]
            by_cases hseq : ({ m.status with lastRssiDbm := int8Cast m.rssi, lastSnrDb := int8Cast m.snr } : StatusPayload).lastCmdSeq = cmdSeq
            · rw [if_pos hseq]
              exact hchain1
            · rw [if_neg hseq]
              exact ih _ hchain1 hbound1
          · rw [if_neg hsm]
            exact ih _ hchain1 hbound1
      · rw [if_neg hsend]
        cases hrx : p.rx with
        | none => exact ih _ hchain hbound
        | some m =>
          simp only []
          by_cases hsm : m.typeByte = 2 ∧ m.src = LORA_NODE_RECEIVER
          · rw [if_pos hsm]
            by_cases hseq : ({ m.status with lastRssiDbm := int8Cast m.rssi, lastSnrDb := int8Cast m.snr } : StatusPayload).lastCmdSeq = cmdSeq
            · rw [if_pos hseq]
              exact hchain
            · rw [if_neg hseq]
              exact ih _ hchain hbound
          · rw [if_neg hsm]
            exact ih _ hchain hbound
    · rw [if_neg ht]
      exact hchain

/-- Helper: the wait loop never discards recorded transmissions. -/
theorem ackLoop_sends_nonempty (start cmdSeq : Nat) (polls : List SenderPoll)
    (st0 : AckLoopState) (h : st0.sends ≠ []) :
    (ackLoop start cmdSeq polls st0).2.sends ≠ [] := by
  induction polls generalizing st0 with
  | nil => simpa [ackLoop] using h
  | cons p rest ih =>
    rw [ackLoop]
    by_cases ht : p.now - start < SENDER_CMD_ACK_TIMEOUT_MS
    · rw [if_pos ht]
      by_cases hsend : st0.nextSend ≤ p.now
      · rw [if_pos hsend]
        have h1 : st0.sends ++ [p.now] ≠ [] := by simp
        cases hrx : p.rx with
        | none => exact ih _ h1
        | some m =>
          simp only []
          by_cases hsm : m.typeByte = 2 ∧ m.src = LORA_NODE_RECEIVER
          · rw [if_pos hsm]
            by_cases hseq : ({ m.status with lastRssiDbm := int8Cast m.rssi, lastSnrDb := int8Cast m.snr } : StatusPayload).lastCmdSeq = cmdSeq
            · rw [if_pos hseq]
              exact h1
            · rw [if_neg hseq]
              exact ih _ h1
          · rw [if_neg hsm]
            exact ih _ h1
      · rw [if_neg hsend]
        cases hrx : p.rx with
        | none => exact ih _ h
        | some m =>
          simp only []
          by_cases hsm : m.typeByte = 2 ∧ m.src = LORA_NODE_RECEIVER
          · rw [if_pos hsm]
            by_cases hseq : ({ m.status with lastRssiDbm := int8Cast m.rssi, lastSnrDb := int8Cast m.snr } : StatusPayload).lastCmdSeq = cmdSeq
            · rw [if_pos hseq]
              exact h
            · rw [if_neg hseq]
              exact ih _ h
          · rw [if_neg hsm]
            exact ih _ h
    · rw [if_neg ht]
      exact h

/-- C2: `sendCommandWithAck` allocates the fresh sequence number
`gSeq` (advancing the counter), returns success iff a Status with
src = receiver and `lastCmdSeq` equal to that sequence arrives at a
poll strictly before the 10 s ACK deadline (returning failure when
the deadline elapses without one), retransmits on the 1 s retry
cadence (consecutive transmissions at least one retry interval apart,
with a transmission fired at the first in-deadline poll), and a
Status whose `lastCmdSeq` differs merely updates the cached
last-status (with RSSI/SNR stamped in) without completing the
command. -/
theorem c2_send_command_with_ack_correlation (sst : SenderState) (start : Nat) (polls : List SenderPoll)
    (hmono : List.Sorted (· ≤ ·) (start :: polls.map (·.now))) :
    (sendCommandWithAck sst start polls).2.1.gSeq = (sst.gSeq + 1) % 65536 ∧
    ((sendCommandWithAck sst start polls).1 = true ↔
      ∃ p ∈ polls, p.now - start < SENDER_CMD_ACK_TIMEOUT_MS ∧ isAckFor sst.gSeq p = true) ∧
    List.Chain' (fun a b => a + SENDER_CMD_RETRY_INTERVAL_MS ≤ b)
      (sendCommandWithAck sst start polls).2.2 ∧
    (∀ p rest, polls = p :: rest → p.now - start < SENDER_CMD_ACK_TIMEOUT_MS →
      (sendCommandWithAck sst start polls).2.2 ≠ []) ∧
    (∀ (tnow : Nat) (m : SenderRxMsg) (rest : List SenderPoll) (st0 : AckLoopState),
      tnow - start < SENDER_CMD_ACK_TIMEOUT_MS → st0.nextSend ≤ tnow →
      m.typeByte = 2 → m.src = LORA_NODE_RECEIVER → m.status.lastCmdSeq ≠ sst.gSeq →
      ackLoop start sst.gSeq ({ now := tnow, rx := some m } :: rest) st0
        = ackLoop start sst.gSeq rest
            { st0 with
              sends := st0.sends ++ [tnow]
              nextSend := tnow + SENDER_CMD_RETRY_INTERVAL_MS
              gLastStatus := { m.status with lastRssiDbm := int8Cast m.rssi, lastSnrDb := int8Cast m.snr }
              gLastStatusRxMs := tnow }) := by
  refine ⟨rfl, ?_, ?_, ?_, ?_⟩
  · exact ackLoop_true_iff start sst.gSeq polls _ hmono
  · exact ackLoop_sends_cadence start sst.gSeq polls _ (by simp) (by simp)
  · rintro p rest rfl ht
    show (ackLoop start sst.gSeq (p :: rest) _).2.sends ≠ []
    rw [ackLoop]
    rw [if_pos ht]
    rw [if_pos (by exact Nat.zero_le _ : ({ gLastStatus := sst.gLastStatus, gLastStatusRxMs := sst.gLastStatusRxMs, sends := [], nextSend := 0 } : AckLoopState).nextSend ≤ p.now)]
    have h1 : (([] : List Nat) ++ [p.now]) ≠ [] := by simp
    cases hrx : p.rx with
    | none => exact ackLoop_sends_nonempty _ _ _ _ (by simpa using h1)
    | some m =>
      simp only []
      by_cases hsm : m.typeByte = 2 ∧ m.src = LORA_NODE_RECEIVER
      · rw [if_pos hsm]
        by_cases hseq : ({ m.status with lastRssiDbm := int8Cast m.rssi, lastSnrDb := int8Cast m.snr } : StatusPayload).lastCmdSeq = sst.gSeq
        · rw [if_pos hseq]
          simp
        · rw [if_neg hseq]
          exact ackLoop_sends_nonempty _ _ _ _ (by simp)
      · rw [if_neg hsm]
        exact ackLoop_sends_nonempty _ _ _ _ (by simp)
  · intro tnow m rest st0 ht hsend htype hsrc hne
    rw [ackLoop]
    rw [if_pos ht]
    simp only []
    rw [if_pos hsend]
    rw [if_pos (⟨htype, hsrc⟩ : m.typeByte = 2 ∧ m.src = LORA_NODE_RECEIVER)]
    rw [if_neg (by simpa using hne)]

/-- Witness for `c2_send_command_with_ack_correlation`: sequence 42,
started at t=1000, with the correlated Status arriving at t=2000. -/
theorem c2_send_command_with_ack_correlation_witness :
    (sendCommandWithAck c2Sender 1000 c2Polls).2.1.gSeq = (c2Sender.gSeq + 1) % 65536 ∧
    ((sendCommandWithAck c2Sender 1000 c2Polls).1 = true ↔
      ∃ p ∈ c2Polls, p.now - 1000 < SENDER_CMD_ACK_TIMEOUT_MS ∧
        isAckFor c2Sender.gSeq p = true) ∧
    List.Chain' (fun a b => a + SENDER_CMD_RETRY_INTERVAL_MS ≤ b)
      (sendCommandWithAck c2Sender 1000 c2Polls).2.2 ∧
    (∀ p rest, c2Polls = p :: rest → p.now - 1000 < SENDER_CMD_ACK_TIMEOUT_MS →
      (sendCommandWithAck c2Sender 1000 c2Polls).2.2 ≠ []) ∧
    (∀ (tnow : Nat) (m : SenderRxMsg) (rest : List SenderPoll) (st0 : AckLoopState),
      tnow - 1000 < SENDER_CMD_ACK_TIMEOUT_MS → st0.nextSend ≤ tnow →
      m.typeByte = 2 → m.src = LORA_NODE_RECEIVER → m.status.lastCmdSeq ≠ c2Sender.gSeq →
      ackLoop 1000 c2Sender.gSeq ({ now := tnow, rx := some m } :: rest) st0
        = ackLoop 1000 c2Sender.gSeq rest
            { st0 with
              sends := st0.sends ++ [tnow]
              nextSend := tnow + SENDER_CMD_RETRY_INTERVAL_MS
              gLastStatus := { m.status with lastRssiDbm := int8Cast m.rssi, lastSnrDb := int8Cast m.snr }
              gLastStatusRxMs := tnow }) :=
  c2_send_command_with_ack_correlation c2Sender 1000 c2Polls (by decide)

set_option maxRecDepth 4000 in
/-- C3: the claim states that every received radio packet of total
size 9, 11 or 23 bytes is rejected as malformed regardless of its
contents.  COUNTEREXAMPLE: a crafted 9-byte wire packet (magic 0x34,
type Command, one payload byte, CRC computed over the type-inferred
payload with the missing byte zero-filled) is accepted by
`LoRaLink::recv`. -/
theorem c3_nine_byte_packet_accepted :
    nineByteWire.length = 9 ∧ (loraRecv nineByteWire).isSome = true := by
  decide

/-- C3 (amended): `LoRaLink::recv` accepts only byte sequences whose
total size lies between `MIN_PACKET_SIZE = 8` and
`MAX_PACKET_SIZE = 22` (so 23-byte packets are always rejected); the
size is not cross-checked against the type field, and 9- or 11-byte
packets can be accepted when magic and CRC match. -/
theorem c3_recv_size_window (bytes : List Nat) (h : (loraRecv bytes).isSome = true) :
    8 ≤ bytes.length ∧ bytes.length ≤ 22 := by
  unfold loraRecv at h
  by_cases hc : bytes.length < 8 ∨ 22 < bytes.length
  · rw [if_pos hc] at h; simp at h
  · push_neg at hc; omega

set_option maxRecDepth 4000 in
/-- Witness for `c3_recv_size_window` at a well-formed 10-byte
Command packet. -/
theorem c3_recv_size_window_witness :
    (loraRecv commandWire).isSome = true ∧
      8 ≤ commandWire.length ∧ commandWire.length ≤ 22 :=
  ⟨by decide, c3_recv_size_window commandWire (by decide)⟩

/-- C7: the claim states that each of the three sensor quantities in
the Status payload is carried in one byte on the wire.
COUNTEREXAMPLE: in the checked-in `proto::StatusPayload` the Status
payload is 14 bytes and the temperature field occupies two wire bytes
(offsets 8 and 9): the in-domain temperatures −1 °C and 205 °C
serialize with different bytes at offset 9 (255 vs 0), which no
one-byte encoding allows. -/
theorem c7_temperature_spans_two_bytes :
    getPayloadSize 2 = 14 ∧
    (statusPayloadBytes { zeroStatus with temperatureC := -1 }).getD 8 0 = 255 ∧
    (statusPayloadBytes { zeroStatus with temperatureC := -1 }).getD 9 0 = 255 ∧
    (statusPayloadBytes { zeroStatus with temperatureC := 205 }).getD 8 0 = 205 ∧
    (statusPayloadBytes { zeroStatus with temperatureC := 205 }).getD 9 0 = 0 := by
  decide

/-- C7 (amended): the three sensor quantities are carried full-width
(two bytes each, little-endian) in the 14-byte Status payload of the
checked-in `protocol.h`; the quantizers documented by the spec (and
absent from the checked-in sources) satisfy the stated round-trip
bounds: `unpack_temp (pack_temp t) = t` on [−50, 205],
`unpack_voltage (pack_voltage v)` within 31 mV below `v` on
[8000, 16160], and `unpack_power (pack_power w)` within 15 W below
`w` on [0, 4080]. -/
theorem c7_quantizer_roundtrip (t : Int) (v w : Nat) (s : StatusPayload)
    (ht : -50 ≤ t ∧ t ≤ 205) (hv : 8000 ≤ v ∧ v ≤ 16160) (hw : w ≤ 4080) :
    unpackTemp (packTemp t) = t ∧
    unpackVoltage (packVoltage v) ≤ v ∧ v - unpackVoltage (packVoltage v) ≤ 31 ∧
    unpackPower (packPower w) ≤ w ∧ w - unpackPower (packPower w) ≤ 15 ∧
    (statusPayloadBytes s).length = 14 := by
  obtain ⟨ht1, ht2⟩ := ht
  obtain ⟨hv1, hv2⟩ := hv
  have htemp : unpackTemp (packTemp t) = t := by
    simp only [packTemp, unpackTemp]
    omega
  have hpack : packVoltage v = (v - 8000) / 32 := by
    simp only [packVoltage]
    have hm : v % 65536 = v := by omega
    rw [hm]
    have hcast : ((v : Nat) : Int) - 8000 = ((v - 8000 : Nat) : Int) := by omega
    rw [hcast, show (32 : Int) = ((32 : Nat) : Int) from rfl, ← Int.ofNat_tdiv]
    omega
  have hvolt : unpackVoltage (packVoltage v) ≤ v ∧ v - unpackVoltage (packVoltage v) ≤ 31 := by
    rw [hpack]
    simp only [unpackVoltage]
    omega
  have hpow : unpackPower (packPower w) ≤ w ∧ w - unpackPower (packPower w) ≤ 15 := by
    simp only [unpackPower, packPower]
    omega
  have hlen : (statusPayloadBytes s).length = 14 := by
    simp [statusPayloadBytes, u16Bytes, int16Bytes]
  exact ⟨htemp, hvolt.1, hvolt.2, hpow.1, hpow.2, hlen⟩

/-- Witness for `c7_quantizer_roundtrip` at t = 100 °C, v = 12150 mV,
w = 1800 W. -/
theorem c7_quantizer_roundtrip_witness :
    (unpackTemp (packTemp 100) = 100 ∧
     unpackVoltage (packVoltage 12150) ≤ 12150 ∧
     12150 - unpackVoltage (packVoltage 12150) ≤ 31 ∧
     unpackPower (packPower 1800) ≤ 1800 ∧
     1800 - unpackPower (packPower 1800) ≤ 15 ∧
     (statusPayloadBytes zeroStatus).length = 14) :=
  c7_quantizer_roundtrip 100 12150 1800 zeroStatus
    (by decide) (by decide) (by decide)

/-- C1: for every Command packet accepted for this receiver
(type = Command, dst = receiver), the dispatch block emits exactly one
Status transmission; every emitted Status carries `lastCmdSeq` equal
to the incoming command's `seq`; and in the duplicate case
(`seq == gLastProcessedCmdSeq`) no W-BUS frame is written. -/
theorem c1_command_status_ack (st : ReceiverState) (typeByte dst seq kind minutes : Nat)
    (rssi snr : Int) (now : Nat)
    (htype : typeByte = 1) (hdst : dst = LORA_NODE_RECEIVER) :
    ((receiverDispatch st typeByte dst seq kind minutes rssi snr now).2.filter
        Effect.isStatusTx).length = 1 ∧
    (∀ e ∈ (receiverDispatch st typeByte dst seq kind minutes rssi snr now).2,
        ∀ s p, e = Effect.statusTx s p → p.lastCmdSeq = seq) ∧
    (seq = st.gLastProcessedCmdSeq →
      ((receiverDispatch st typeByte dst seq kind minutes rssi snr now).2.filter
        Effect.isWbusFrame) = []) := by
  subst htype hdst
  by_cases hdup : seq = st.gLastProcessedCmdSeq
  · simp [receiverDispatch, hdup, sendStatus, Effect.isStatusTx, Effect.isWbusFrame]
  · simp only [receiverDispatch, LORA_NODE_RECEIVER, if_pos (And.intro rfl rfl), if_neg hdup]
    by_cases hk1 : kind = 1
    · simp [dispatchSwitch, hk1, sendStatus, wbusStop, wbusSendCommand,
        Effect.isStatusTx, Effect.isWbusFrame, hdup]
    · by_cases hk23 : kind = 2 ∨ kind = 3
      · simp [dispatchSwitch, hk1, hk23, sendStatus, wbusStartParkingHeater, wbusSendCommand,
          Effect.isStatusTx, Effect.isWbusFrame, hdup]
      · simp [dispatchSwitch, hk1, hk23, sendStatus,
          Effect.isStatusTx, Effect.isWbusFrame, hdup]

/-- Witness for `c1_command_status_ack`: a Stop command with seq 7
arriving at the freshly booted receiver. -/
theorem c1_command_status_ack_witness :
    ((receiverDispatch initialReceiverState 1 2 7 1 0 (-60) 5 0).2.filter
        Effect.isStatusTx).length = 1 ∧
    (∀ e ∈ (receiverDispatch initialReceiverState 1 2 7 1 0 (-60) 5 0).2,
        ∀ s p, e = Effect.statusTx s p → p.lastCmdSeq = 7) ∧
    (7 = initialReceiverState.gLastProcessedCmdSeq →
      ((receiverDispatch initialReceiverState 1 2 7 1 0 (-60) 5 0).2.filter
        Effect.isWbusFrame) = []) :=
  c1_command_status_ack initialReceiverState 1 2 7 1 0 (-60) 5 0 rfl rfl

/-- C4: the claim states that every W-BUS heater command is retried
up to 3 times with ACK verification and that there exists an
execution in which `wbus.stop()` or `wbus.startParkingHeater()`
returns false.  In the checked-in implementation
`WBusSimple::sendCommand` writes one frame and returns `true`
unconditionally: `stop()` and `startParkingHeater()` can never return
false (for either value of the break-pulse flag and any minutes), a
single Stop frame `F4 02 10 E6` is written with no retransmission,
and the declared `kCommandRetries = 3` is never consulted. -/
theorem c4_wbus_write_unconditionally_succeeds :
    (∀ b : Bool, (wbusStop b).2.2 = true) ∧
    (∀ (b : Bool) (m : Nat), (wbusStartParkingHeater b m).2.2 = true) ∧
    (wbusStop false).2.1 = [0xF4, 2, 0x10, 0xE6] ∧
    kCommandRetries = 3 := by
  refine ⟨fun b => rfl, fun b m => rfl, by decide, rfl⟩

/-- C5: the claim states that a QueryStatus command (kind 4) with a
new sequence number performs one poll and leaves the heater state
unchanged.  The checked-in receiver dispatch has no QueryStatus case:
kind 4 falls into `default:` with `ok = false`, so the heater state is
set to `HeaterState::Error` (3), no W-BUS frame at all is written
(neither a write command nor a poll), and the sequence is still
recorded and ACKed with one Status. -/
theorem c5_querystatus_dispatch_sets_error :
    ((receiverDispatch initialReceiverState 1 2 7 4 0 0 0 0).1).gStatus.state = 3 ∧
    ((receiverDispatch initialReceiverState 1 2 7 4 0 0 0 0).2.filter
        Effect.isWbusFrame) = [] ∧
    ((receiverDispatch initialReceiverState 1 2 7 4 0 0 0 0).2.filter
        Effect.isStatusTx).length = 1 ∧
    ((receiverDispatch initialReceiverState 1 2 7 4 0 0 0 0).1).gLastProcessedCmdSeq = 7 := by
  decide

/-- C9: for every command with a new sequence number whose execution
fails (the dispatch leaves the heater state at Error), the receiver
still records that `seq` as the persisted last-processed sequence and
still emits exactly one Status ACK carrying that `seq`; a subsequent
retry with the same `seq` then takes the duplicate path: no W-BUS
frame is written and exactly one Status is re-emitted. -/
theorem c9_failed_command_recorded_and_acked (st : ReceiverState)
    (seq kind minutes kind2 minutes2 : Nat)
    (rssi snr rssi2 snr2 : Int) (now now2 : Nat)
    (hnew : seq ≠ st.gLastProcessedCmdSeq)
    (hfail : ((receiverDispatch st 1 2 seq kind minutes rssi snr now).1).gStatus.state = 3) :
    ((receiverDispatch st 1 2 seq kind minutes rssi snr now).1).gLastProcessedCmdSeq = seq ∧
    ((receiverDispatch st 1 2 seq kind minutes rssi snr now).2.filter
        Effect.isStatusTx).length = 1 ∧
    (∀ e ∈ (receiverDispatch st 1 2 seq kind minutes rssi snr now).2,
        ∀ s p, e = Effect.statusTx s p → p.lastCmdSeq = seq) ∧
    ((receiverDispatch ((receiverDispatch st 1 2 seq kind minutes rssi snr now).1)
        1 2 seq kind2 minutes2 rssi2 snr2 now2).2.filter Effect.isWbusFrame) = [] ∧
    ((receiverDispatch ((receiverDispatch st 1 2 seq kind minutes rssi snr now).1)
        1 2 seq kind2 minutes2 rssi2 snr2 now2).2.filter Effect.isStatusTx).length = 1 := by
  have hrec : ((receiverDispatch st 1 2 seq kind minutes rssi snr now).1).gLastProcessedCmdSeq
      = seq := by
    by_cases hk1 : kind = 1
    · simp [receiverDispatch, LORA_NODE_RECEIVER, if_neg hnew, dispatchSwitch, hk1, sendStatus]
    · by_cases hk23 : kind = 2 ∨ kind = 3
      · simp [receiverDispatch, LORA_NODE_RECEIVER, if_neg hnew, dispatchSwitch, hk1, hk23,
          sendStatus]
      · simp [receiverDispatch, LORA_NODE_RECEIVER, if_neg hnew, dispatchSwitch, hk1, hk23,
          sendStatus]
  have hdup2 : ∀ st2 : ReceiverState, st2.gLastProcessedCmdSeq = seq →
      ((receiverDispatch st2 1 2 seq kind2 minutes2 rssi2 snr2 now2).2.filter
        Effect.isWbusFrame) = [] ∧
      ((receiverDispatch st2 1 2 seq kind2 minutes2 rssi2 snr2 now2).2.filter
        Effect.isStatusTx).length = 1 := by
    intro st2 h2
    simp [receiverDispatch, LORA_NODE_RECEIVER, h2.symm, sendStatus,
      Effect.isWbusFrame, Effect.isStatusTx]
  refine ⟨hrec, ?_, ?_, (hdup2 _ hrec).1, (hdup2 _ hrec).2⟩
  · by_cases hk1 : kind = 1
    · simp [receiverDispatch, LORA_NODE_RECEIVER, if_neg hnew, dispatchSwitch, hk1, sendStatus,
        Effect.isStatusTx]
    · by_cases hk23 : kind = 2 ∨ kind = 3
      · simp [receiverDispatch, LORA_NODE_RECEIVER, if_neg hnew, dispatchSwitch, hk1, hk23,
          sendStatus, Effect.isStatusTx]
      · simp [receiverDispatch, LORA_NODE_RECEIVER, if_neg hnew, dispatchSwitch, hk1, hk23,
          sendStatus, Effect.isStatusTx]
  · by_cases hk1 : kind = 1
    · simp [receiverDispatch, LORA_NODE_RECEIVER, if_neg hnew, dispatchSwitch, hk1, sendStatus]
    · by_cases hk23 : kind = 2 ∨ kind = 3
      · simp [receiverDispatch, LORA_NODE_RECEIVER, if_neg hnew, dispatchSwitch, hk1, hk23,
          sendStatus]
      · simp [receiverDispatch, LORA_NODE_RECEIVER, if_neg hnew, dispatchSwitch, hk1, hk23,
          sendStatus]

/-- Helper: in a run of `n` Status transmissions with no deep sleep in
between, the i-th emitted nonce triple is
`((gSeq₀ + i) mod 2^16, receiver, sender)`. -/
theorem seqRun_txStatus_emit (n : Nat) (st : NodeSeqState) (i : Nat)
    (hst : st.gSeq < 65536) (hi : i < n) :
    (seqRun st (List.replicate n SeqEvent.txStatus)).2.getD i (0, 0, 0)
      = ((st.gSeq + i) % 65536, LORA_NODE_RECEIVER, LORA_NODE_SENDER) := by
  induction n generalizing st i with
  | zero => omega
  | succ m ih =>
    rw [List.replicate_succ]
    simp only [seqRun, seqStep]
    have hlt : ({ st with gSeq := (st.gSeq + 1) % 65536 } : NodeSeqState).gSeq < 65536 :=
      Nat.mod_lt _ (by omega)
    match i with
    | 0 =>
      simp only [List.cons_append, List.nil_append, List.getD_cons_zero]
      congr 1
      omega
    | Nat.succ k =>
      simp only [List.cons_append, List.nil_append, List.getD_cons_succ]
      rw [ih _ k hlt (by omega)]
      show (((st.gSeq + 1) % 65536 + k) % 65536, LORA_NODE_RECEIVER, LORA_NODE_SENDER)
        = ((st.gSeq + (k + 1)) % 65536, LORA_NODE_RECEIVER, LORA_NODE_SENDER)
      simp only [Prod.mk.injEq, and_true]
      omega

/-- Helper: `buildNonce` is injective in the sequence number on the
16-bit range for fixed src/dst. -/
theorem buildNonce_inj_u16 (a b : Nat) (ha : a < 65536) (hb : b < 65536)
    (h : buildNonce a LORA_NODE_RECEIVER LORA_NODE_SENDER
       = buildNonce b LORA_NODE_RECEIVER LORA_NODE_SENDER) : a = b := by
  simp only [buildNonce, List.cons.injEq] at h
  omega

/-- C6: the claim states that the nonce triples (seq, src, dst) of a
node are distinct over the node's whole lifetime, including across the
receiver's deep-sleep/wake cycles.  COUNTEREXAMPLE: `gSeq` is a plain
static (not `RTC_DATA_ATTR`), so a deep-sleep wake re-initializes it
to 1: transmitting one Status, deep-sleeping, and transmitting another
Status produces two distinct messages with the identical nonce triple
(1, receiver, sender). -/
theorem c6_nonce_triple_reused_across_sleep :
    (seqRun nodeBoot [.txStatus, .sleepWake, .txStatus]).2.length = 2 ∧
    (seqRun nodeBoot [.txStatus, .sleepWake, .txStatus]).2.getD 0 (0, 0, 0) = (1, 2, 1) ∧
    (seqRun nodeBoot [.txStatus, .sleepWake, .txStatus]).2.getD 1 (0, 0, 0) = (1, 2, 1) := by
  decide

/-- C6 (amended): within a single awake interval (no deep-sleep/wake
cycle in between) the nonce triples of distinct transmissions are
pairwise distinct up to 16-bit wrap, the counter advancing by one per
transmission; across deep-sleep cycles `gSeq` restarts at 1 (it is not
RTC-persisted) and triples repeat. -/
theorem c6_nonce_triples_distinct_within_wake (st : NodeSeqState) (n i j : Nat)
    (hst : st.gSeq < 65536) (hij : i < j) (hj : j < n) (hwrap : j - i < 65536) :
    (seqRun st (List.replicate n SeqEvent.txStatus)).2.getD i (0, 0, 0)
      ≠ (seqRun st (List.replicate n SeqEvent.txStatus)).2.getD j (0, 0, 0) ∧
    buildNonce ((seqRun st (List.replicate n SeqEvent.txStatus)).2.getD i (0, 0, 0)).1
        LORA_NODE_RECEIVER LORA_NODE_SENDER
      ≠ buildNonce ((seqRun st (List.replicate n SeqEvent.txStatus)).2.getD j (0, 0, 0)).1
        LORA_NODE_RECEIVER LORA_NODE_SENDER := by
  rw [seqRun_txStatus_emit n st i hst (by omega), seqRun_txStatus_emit n st j hst hj]
  have hne : (st.gSeq + i) % 65536 ≠ (st.gSeq + j) % 65536 := by omega
  constructor
  · simp [hne]
  · intro h
    exact hne (buildNonce_inj_u16 _ _ (Nat.mod_lt _ (by omega)) (Nat.mod_lt _ (by omega)) h)

/-- Witness for `c6_nonce_triples_distinct_within_wake`: the first two
of three transmissions after cold boot. -/
theorem c6_nonce_triples_distinct_within_wake_witness :
    (seqRun nodeBoot (List.replicate 3 SeqEvent.txStatus)).2.getD 0 (0, 0, 0)
      ≠ (seqRun nodeBoot (List.replicate 3 SeqEvent.txStatus)).2.getD 1 (0, 0, 0) ∧
    buildNonce ((seqRun nodeBoot (List.replicate 3 SeqEvent.txStatus)).2.getD 0 (0, 0, 0)).1
        LORA_NODE_RECEIVER LORA_NODE_SENDER
      ≠ buildNonce ((seqRun nodeBoot (List.replicate 3 SeqEvent.txStatus)).2.getD 1 (0, 0, 0)).1
        LORA_NODE_RECEIVER LORA_NODE_SENDER :=
  c6_nonce_triples_distinct_within_wake nodeBoot 3 0 1
    (by decide) (by decide) (by decide) (by decide)

/-- C10: the claim states that for every button press that begins with
the menu Hidden, a press of at least 800 ms activates the first item.
COUNTEREXAMPLE: press at t=100 ms, an update at t=10200 ms while still
held lets the 10-second menu timeout hide the menu, and the release at
t=11000 ms (press duration 10900 ms ≥ 800 ms) is ignored because the
menu is no longer Visible: nothing is activated. -/
theorem c10_long_press_lost_to_menu_timeout :
    (menuRun (menuBegin 0) [(100, true), (10200, true), (11000, false)]).itemActivated
      = false ∧
    (menuRun (menuBegin 0) [(100, true), (10200, true), (11000, false)]).currentState
      = MenuState.Hidden ∧
    LONG_PRESS_MS ≤ 11000 - 100 := by
  decide

/-- C10 (amended): for a button press that begins with the menu
Hidden, the press edge makes the menu Visible with the first item
(Start, index 0) selected, and when the release of that same press is
the next processed edge (so the menu is still Visible, in particular
the 10-second inactivity timeout has not hidden it), a press of at
least 800 ms activates the selected first item and hides the menu,
while a shorter press advances the selection to the second item
(index 1), leaving the menu Visible - never the first item. -/
theorem c10_press_from_hidden (st : MenuSt) (t1 t2 : Nat)
    (hHidden : st.currentState = .Hidden)
    (hNotPressed : st.buttonWasPressed = false)
    (hNoAct : st.itemActivated = false)
    (hdeb1 : st.lastButtonMs + DEBOUNCE_MS ≤ t1)
    (hdeb2 : t1 + DEBOUNCE_MS ≤ t2) :
    (menuUpdate st t1 true).currentState = .Visible ∧
    (menuUpdate st t1 true).selectedItem = 0 ∧
    (LONG_PRESS_MS ≤ t2 - t1 →
      (menuUpdate (menuUpdate st t1 true) t2 false).itemActivated = true ∧
      (menuUpdate (menuUpdate st t1 true) t2 false).currentState = .Hidden ∧
      (menuUpdate (menuUpdate st t1 true) t2 false).selectedItem = 0) ∧
    (t2 - t1 < LONG_PRESS_MS →
      (menuUpdate (menuUpdate st t1 true) t2 false).currentState = .Visible ∧
      (menuUpdate (menuUpdate st t1 true) t2 false).selectedItem = 1 ∧
      (menuUpdate (menuUpdate st t1 true) t2 false).itemActivated = false) := by
  have hd1 : DEBOUNCE_MS ≤ t1 - st.lastButtonMs := by simp [DEBOUNCE_MS] at *; omega
  have ht1 : ¬ (t1 = 0) := by simp [DEBOUNCE_MS] at hdeb1; omega
  have h1 : menuUpdate st t1 true =
      { st with currentState := .Visible, menuShowTimeMs := t1, selectedItem := 0,
                buttonWasPressed := true, lastButtonMs := t1, buttonPressStartMs := t1 } := by
    simp [menuUpdate, menuShow, menuIsTimedOut, hNotPressed, hHidden, hd1, ht1]
  rw [h1]
  have hd2 : DEBOUNCE_MS ≤ t2 - t1 := by simp [DEBOUNCE_MS] at *; omega
  refine ⟨rfl, rfl, ?_, ?_⟩
  · intro hlong
    simp [menuUpdate, menuHide, menuIsTimedOut, hd2, hlong]
  · intro hshort
    have hnotlong : ¬ (LONG_PRESS_MS ≤ t2 - t1) := by omega
    have ht2 : ¬ (t2 = 0) := by simp [DEBOUNCE_MS] at *; omega
    simp [menuUpdate, menuHide, menuIsTimedOut, hd2, hnotlong, hNoAct, menuItemCount, ht2]

/-- Witness for `c10_press_from_hidden`: press at t=100 released at
t=1000 (a 900 ms long press) from the freshly initialized menu. -/
theorem c10_press_from_hidden_witness :
    (menuUpdate (menuBegin 0) 100 true).currentState = .Visible ∧
    (menuUpdate (menuBegin 0) 100 true).selectedItem = 0 ∧
    (LONG_PRESS_MS ≤ 1000 - 100 →
      (menuUpdate (menuUpdate (menuBegin 0) 100 true) 1000 false).itemActivated = true ∧
      (menuUpdate (menuUpdate (menuBegin 0) 100 true) 1000 false).currentState = .Hidden ∧
      (menuUpdate (menuUpdate (menuBegin 0) 100 true) 1000 false).selectedItem = 0) ∧
    (1000 - 100 < LONG_PRESS_MS →
      (menuUpdate (menuUpdate (menuBegin 0) 100 true) 1000 false).currentState = .Visible ∧
      (menuUpdate (menuUpdate (menuBegin 0) 100 true) 1000 false).selectedItem = 1 ∧
      (menuUpdate (menuUpdate (menuBegin 0) 100 true) 1000 false).itemActivated = false) :=
  c10_press_from_hidden (menuBegin 0) 100 1000
    (by decide) (by decide) (by decide) (by decide) (by decide)

/-- C8: the claim states that for every occurrence of an
ambiguous-length ID the parser consumes two bytes as a big-endian
value when the byte two positions ahead is another known ID *or that
position is at or past the end* of the TLV region.
COUNTEREXAMPLE: in `c8CxPacket` the ambiguous ID 0x57 sits at tag
position 2 with exactly one value byte before the checksum
(`endPos = 4 ≤ pos + 2 = 5`, i.e. two positions ahead is past the
end), yet the parser consumes ONE byte (`status_57 = 0x0A`, new
position 4), not two. -/
theorem c8_past_end_consumes_one_byte :
    (tryParseStatusTlv c8CxPacket).map (fun s => (s.valid, s.status_57))
      = some (true, 10) ∧
    parseMaybeU16 c8CxPacket.payload 4 3 = some (10, 4) ∧
    (4 : Nat) ≤ 3 + 2 := by
  refine ⟨?_, by decide, by decide⟩
  simp [c8CxPacket, tryParseStatusTlv, parseTlvLoop, parseMaybeU16, isKnownId, be16,
    emptyWBusStatus]

/-- C8 (amended): at an occurrence of an ambiguous-length ID (here
0x57; 0x5F, 0x78, 0x89 share the same `parseMaybeU16` code path) at
tag position `pos`, the parser consumes two bytes as a big-endian
value when two value bytes fit inside the TLV region and the byte two
positions past the value start is at the end of the region or is a
known ID; otherwise it consumes one byte when one value byte fits and
the byte one position past the value start is at/past the end or is a
known ID; otherwise parsing aborts with no decoded snapshot.  And
whenever an ID outside the known set is reached at a tag position, the
parse aborts (returns none) rather than desynchronizing. -/
theorem c8_ambiguous_length_heuristic (payload : List Nat) (endPos pos : Nat)
    (s : WBusStatus)
    (hpos : pos < endPos) (hid : payload.getD pos 0 = 0x57) :
    ((pos + 1 + 2 ≤ endPos ∧
        (endPos ≤ pos + 1 + 2 ∨ isKnownId (payload.getD (pos + 1 + 2) 0))) →
       parseTlvLoop payload endPos pos s
         = parseTlvLoop payload endPos (pos + 1 + 2)
             { s with
                 status_57 := be16 (payload.getD (pos + 1) 0) (payload.getD (pos + 1 + 1) 0) }) ∧
    (¬(pos + 1 + 2 ≤ endPos ∧
        (endPos ≤ pos + 1 + 2 ∨ isKnownId (payload.getD (pos + 1 + 2) 0))) →
     (pos + 1 + 1 ≤ endPos ∧
        (endPos ≤ pos + 1 + 1 ∨ isKnownId (payload.getD (pos + 1 + 1) 0))) →
       parseTlvLoop payload endPos pos s
         = parseTlvLoop payload endPos (pos + 1 + 1)
             { s with status_57 := payload.getD (pos + 1) 0 }) ∧
    (¬(pos + 1 + 2 ≤ endPos ∧
        (endPos ≤ pos + 1 + 2 ∨ isKnownId (payload.getD (pos + 1 + 2) 0))) →
     ¬(pos + 1 + 1 ≤ endPos ∧
        (endPos ≤ pos + 1 + 1 ∨ isKnownId (payload.getD (pos + 1 + 1) 0))) →
       parseTlvLoop payload endPos pos s = none) ∧
    (∀ (q : Nat) (s' : WBusStatus), q < endPos → isKnownId (payload.getD q 0) = false →
       parseTlvLoop payload endPos q s' = none) := by
  refine ⟨?_, ?_, ?_, ?_⟩
  · intro hc2
    rw [parseTlvLoop]
    simp only [hpos, dif_pos]
    rw [parseMaybeU16]
    rw [if_pos hc2]
    simp only [List.getD_eq_getElem?_getD] at hid
    simp [hid]
  · intro hnc2 hc1
    rw [parseTlvLoop]
    simp only [hpos, dif_pos]
    rw [parseMaybeU16]
    rw [if_neg hnc2, if_pos hc1]
    simp only [List.getD_eq_getElem?_getD] at hid
    simp [hid]
  · intro hnc2 hnc1
    rw [parseTlvLoop]
    simp only [hpos, dif_pos]
    rw [parseMaybeU16]
    rw [if_neg hnc2, if_neg hnc1]
    simp only [List.getD_eq_getElem?_getD] at hid
    simp [hid]
  · intro q s' hq hunk
    simp [isKnownId, and_assoc] at hunk
    rw [parseTlvLoop]
    simp only [hq, dif_pos]
    simp [hunk.1, hunk.2.1, hunk.2.2.1, hunk.2.2.2.1, hunk.2.2.2.2.1,
      hunk.2.2.2.2.2.1, hunk.2.2.2.2.2.2.1, hunk.2.2.2.2.2.2.2.1,
      hunk.2.2.2.2.2.2.2.2.1, hunk.2.2.2.2.2.2.2.2.2.1,
      hunk.2.2.2.2.2.2.2.2.2.2.1, hunk.2.2.2.2.2.2.2.2.2.2.2.1,
      hunk.2.2.2.2.2.2.2.2.2.2.2.2.1, hunk.2.2.2.2.2.2.2.2.2.2.2.2.2.1,
      hunk.2.2.2.2.2.2.2.2.2.2.2.2.2.2.1, hunk.2.2.2.2.2.2.2.2.2.2.2.2.2.2.2.1,
      hunk.2.2.2.2.2.2.2.2.2.2.2.2.2.2.2.2.1,
      hunk.2.2.2.2.2.2.2.2.2.2.2.2.2.2.2.2.2.1,
      hunk.2.2.2.2.2.2.2.2.2.2.2.2.2.2.2.2.2.2.1,
      hunk.2.2.2.2.2.2.2.2.2.2.2.2.2.2.2.2.2.2.2.1,
      hunk.2.2.2.2.2.2.2.2.2.2.2.2.2.2.2.2.2.2.2.2.1,
      hunk.2.2.2.2.2.2.2.2.2.2.2.2.2.2.2.2.2.2.2.2.2.1,
      hunk.2.2.2.2.2.2.2.2.2.2.2.2.2.2.2.2.2.2.2.2.2.2.1,
      hunk.2.2.2.2.2.2.2.2.2.2.2.2.2.2.2.2.2.2.2.2.2.2.2.1,
      hunk.2.2.2.2.2.2.2.2.2.2.2.2.2.2.2.2.2.2.2.2.2.2.2.2.1,
      hunk.2.2.2.2.2.2.2.2.2.2.2.2.2.2.2.2.2.2.2.2.2.2.2.2.2.1,
      hunk.2.2.2.2.2.2.2.2.2.2.2.2.2.2.2.2.2.2.2.2.2.2.2.2.2.2.1,
      hunk.2.2.2.2.2.2.2.2.2.2.2.2.2.2.2.2.2.2.2.2.2.2.2.2.2.2.2.1,
      hunk.2.2.2.2.2.2.2.2.2.2.2.2.2.2.2.2.2.2.2.2.2.2.2.2.2.2.2.2]

/-- Witness for `c8_ambiguous_length_heuristic` on
`c8TwoBytePayload` (TLV region [2, 7), ID 0x57 at position 2). -/
theorem c8_ambiguous_length_heuristic_witness :
    ((2 + 1 + 2 ≤ 7 ∧
        (7 ≤ 2 + 1 + 2 ∨ isKnownId (c8TwoBytePayload.getD (2 + 1 + 2) 0))) →
       parseTlvLoop c8TwoBytePayload 7 2 emptyWBusStatus
         = parseTlvLoop c8TwoBytePayload 7 (2 + 1 + 2)
             { emptyWBusStatus with
                 status_57 := be16 (c8TwoBytePayload.getD (2 + 1) 0) (c8TwoBytePayload.getD (2 + 1 + 1) 0) }) ∧
    (¬(2 + 1 + 2 ≤ 7 ∧
        (7 ≤ 2 + 1 + 2 ∨ isKnownId (c8TwoBytePayload.getD (2 + 1 + 2) 0))) →
     (2 + 1 + 1 ≤ 7 ∧
        (7 ≤ 2 + 1 + 1 ∨ isKnownId (c8TwoBytePayload.getD (2 + 1 + 1) 0))) →
       parseTlvLoop c8TwoBytePayload 7 2 emptyWBusStatus
         = parseTlvLoop c8TwoBytePayload 7 (2 + 1 + 1)
             { emptyWBusStatus with status_57 := c8TwoBytePayload.getD (2 + 1) 0 }) ∧
    (¬(2 + 1 + 2 ≤ 7 ∧
        (7 ≤ 2 + 1 + 2 ∨ isKnownId (c8TwoBytePayload.getD (2 + 1 + 2) 0))) →
     ¬(2 + 1 + 1 ≤ 7 ∧
        (7 ≤ 2 + 1 + 1 ∨ isKnownId (c8TwoBytePayload.getD (2 + 1 + 1) 0))) →
       parseTlvLoop c8TwoBytePayload 7 2 emptyWBusStatus = none) ∧
    (∀ (q : Nat) (s' : WBusStatus), q < 7 → isKnownId (c8TwoBytePayload.getD q 0) = false →
       parseTlvLoop c8TwoBytePayload 7 q s' = none) :=
  c8_ambiguous_length_heuristic c8TwoBytePayload 7 2 emptyWBusStatus
    (by decide) (by decide)

/-- Witness for `c9_failed_command_recorded_and_acked`: a kind-4
command (unknown to the dispatch switch, hence `ok = false` and
Error state) with seq 7 at the freshly booted receiver, retried with
the same seq. -/
theorem c9_failed_command_recorded_and_acked_witness :
    ((receiverDispatch initialReceiverState 1 2 7 4 0 0 0 0).1).gLastProcessedCmdSeq = 7 ∧
    ((receiverDispatch initialReceiverState 1 2 7 4 0 0 0 0).2.filter
        Effect.isStatusTx).length = 1 ∧
    (∀ e ∈ (receiverDispatch initialReceiverState 1 2 7 4 0 0 0 0).2,
        ∀ s p, e = Effect.statusTx s p → p.lastCmdSeq = 7) ∧
    ((receiverDispatch ((receiverDispatch initialReceiverState 1 2 7 4 0 0 0 0).1)
        1 2 7 4 0 0 0 0).2.filter Effect.isWbusFrame) = [] ∧
    ((receiverDispatch ((receiverDispatch initialReceiverState 1 2 7 4 0 0 0 0).1)
        1 2 7 4 0 0 0 0).2.filter Effect.isStatusTx).length = 1 :=
  c9_failed_command_recorded_and_acked initialReceiverState 7 4 0 4 0 0 0 0 0 0 0
    (by decide) (by decide)

end WebastoLora
